import Mathlib

/-!
Verification development for the face-detection Streamlit application
(`app_visages.py`). The script is a single linear pipeline:

  decode upload → grayscale → cascade `detectMultiScale` → draw rectangles
  and labels on a copy → display → JPEG-encode for download.

We embed that pipeline shallowly. External library routines (the OpenCV
cascade search, the raster effect of `cv2.rectangle` / `cv2.putText`, PIL
decoding and JPEG encoding) are parameters of the model; deterministic
pixel-format conversions (`cvtColor` between gray and RGB orderings) are
given concrete definitions. Python floats only flow through the pipeline
unchanged, so they are modelled as rationals. In-place numpy mutation is
translated to value passing: the source takes `result_img = img_array.copy()`
before drawing, so the functional translation in which each drawing call
rebinds only `result_img` is faithful.
-/

set_option autoImplicit false

namespace AppVisages

/-- One detected face bounding box `(x, y, w, h)`, as returned by
`detectMultiScale` (numpy row of nonnegative ints). -/
structure FaceBox where
  x : Nat
  y : Nat
  w : Nat
  h : Nat
deriving DecidableEq, Repr

/-- A numpy image array: `g` is a 2-dimensional (grayscale) array of rows of
pixel values, `c` a 3-dimensional array whose innermost lists are the channel
values of one pixel. -/
inductive Img where
  | g (rows : List (List Nat))
  | c (rows : List (List (List Nat)))
deriving DecidableEq, Repr

/-- The user-tunable detection parameters from the sidebar: the hex color
string from the color picker (e.g. `#FF0000`), the `scaleFactor` slider value
and the `minNeighbors` slider value. -/
structure Params where
  color : List Char
  scaleFactor : ℚ
  minNeighbors : Nat

/-- Value of one hexadecimal digit, as `int(-, 16)` reads a digit. -/
def hexDigitVal (ch : Char) : Nat :=
  if '0' ≤ ch ∧ ch ≤ '9' then ch.toNat - '0'.toNat
  else if 'a' ≤ ch ∧ ch ≤ 'f' then ch.toNat - 'a'.toNat + 10
  else if 'A' ≤ ch ∧ ch ≤ 'F' then ch.toNat - 'A'.toNat + 10
  else 0

/-- `s.lstrip('#')`: drop every leading `#`. -/
def lstripHash : List Char → List Char
  | '#' :: rest => lstripHash rest
  | s => s

/-- `int(s[i:i+2], 16)` for the two hex digits starting at index `i`
(the color picker always supplies six hex digits after the `#`). -/
def hexPairAt (s : List Char) (i : Nat) : Nat :=
  16 * hexDigitVal (s.getD i '0') + hexDigitVal (s.getD (i + 1) '0')

/-- Line 55 of the source:
`color_bgr = tuple(int(color.lstrip('#')[i:i + 2], 16) for i in (4, 2, 0))`,
i.e. the pair at offset 4 first, then offset 2, then offset 0. -/
def colorBGR (color : List Char) : Nat × Nat × Nat :=
  let s := lstripHash color
  (hexPairAt s 4, hexPairAt s 2, hexPairAt s 0)

/-- The RGB triple denoted by a hex color string, following the SPEC's words
("rectangleColor: RGB triple", "the RGB triple denoted by the hex color
string"): red digits first, then green, then blue. Stated for comparison with
`colorBGR`, which is what the source computes. -/
def spec_hexToRGB (color : List Char) : Nat × Nat × Nat :=
  let s := lstripHash color
  (hexPairAt s 0, hexPairAt s 2, hexPairAt s 4)

/-- Reverse an RGB triple into BGR channel order. -/
def bgrOfRGB (t : Nat × Nat × Nat) : Nat × Nat × Nat :=
  (t.2.2, t.2.1, t.1)

/-- `cv2.cvtColor(-, cv2.COLOR_RGB2GRAY)` on one pixel, with OpenCV's
8-bit fixed-point coefficients for 0.299 R + 0.587 G + 0.114 B. -/
def rgb2grayPix (p : List Nat) : Nat :=
  (4899 * p.getD 0 0 + 9617 * p.getD 1 0 + 1868 * p.getD 2 0 + 8192) / 16384

/-- `cv2.cvtColor(-, cv2.COLOR_RGB2GRAY)`: a 3-dimensional array collapses to
a 2-dimensional one; already-2-dimensional input is untouched (that branch is
never taken by the script). -/
def rgb2gray : Img → Img
  | Img.c rows => Img.g (rows.map (fun row => row.map rgb2grayPix))
  | i => i

/-- Rows of `cv2.cvtColor(-, cv2.COLOR_GRAY2RGB)`: each gray value is
replicated into three equal channels. -/
def gray2rgbRows (rows : List (List Nat)) : List (List (List Nat)) :=
  rows.map (fun row => row.map (fun v => [v, v, v]))

/-- Lines 90–93: `gray = cv2.cvtColor(img_array, COLOR_RGB2GRAY)` when the
array is 3-dimensional, else `gray = img_array`. -/
def grayOf : Img → Img
  | Img.c rows => rgb2gray (Img.c rows)
  | Img.g rows => Img.g rows

/-- `cv2.cvtColor(-, cv2.COLOR_BGR2RGB)` on one pixel: the first and third
channels are exchanged. -/
def swapPix : List Nat → List Nat
  | [a, b, c] => [c, b, a]
  | p => p

/-- `cv2.cvtColor(-, cv2.COLOR_BGR2RGB)` on a 3-dimensional array. -/
def cvtBGR2RGB : Img → Img
  | Img.c rows => Img.c (rows.map (fun row => row.map swapPix))
  | i => i

/-- Line 152's test `len(result_img.shape) == 3 and result_img.shape[2] == 3`:
the array is 3-dimensional and its channel count (read off the first pixel,
numpy arrays being rectangular) is 3. -/
def channels3 : Img → Bool
  | Img.c rows => ((rows.headD []).headD []).length == 3
  | Img.g _ => false

/-- Lines 152–156: the array handed to `Image.fromarray` before saving —
a BGR→RGB conversion of `result_img` when it is 3-channel, else
`result_img` itself. -/
def resultForSave (img : Img) : Img :=
  if channels3 img then cvtBGR2RGB img else img

/-- The pixel at row `i`, column `j` (channel list; empty when out of range). -/
def pixelAt (img : Img) (i j : Nat) : List Nat :=
  match img with
  | Img.c rows => (rows.getD i []).getD j []
  | Img.g rows => [(rows.getD i []).getD j 0]

/-- One recorded drawing call of the annotation loop: either the
`cv2.rectangle` call (two corner points, color triple, line thickness) or the
`cv2.putText` call (text, origin, font scale, color triple, thickness). -/
inductive DrawOp where
  | rect (p1 p2 : Nat × Nat) (color : Nat × Nat × Nat) (thickness : Nat)
  | text (str : String) (org : Int × Int) (fontScale : ℚ)
      (color : Nat × Nat × Nat) (thickness : Nat)
deriving DecidableEq, Repr

/-- The text of a `putText` call, if the op is one. -/
def textOf : DrawOp → Option String
  | DrawOp.text s _ _ _ _ => some s
  | _ => none

/-- The external library routines the script calls, as abstract functions:
the cascade `detectMultiScale` (grayscale image, scaleFactor, minNeighbors,
minSize), the raster effects of `cv2.rectangle` and `cv2.putText`, and PIL's
JPEG encoder (image, quality). -/
structure Ext where
  detect : Img → ℚ → Nat → Nat × Nat → List FaceBox
  rectangle : Img → Nat × Nat → Nat × Nat → Nat × Nat × Nat → Nat → Img
  putText : Img → String → Int × Int → ℚ → Nat × Nat × Nat → Nat → Img
  jpeg : Img → Nat → List Nat

/-- Line 121's face number: `len([f for f in faces if f[1] <= y])`, the count
of detected boxes whose `y` is at most the current box's `y`, prefixed by the
literal text of the f-string `f'Visage {...}'`. -/
def labelFor (faces : List FaceBox) (f : FaceBox) : String :=
  "Visage " ++ toString (faces.filter (fun g => g.y ≤ f.y)).length

/-- The two drawing calls issued for one face box in lines 119–122:
`cv2.rectangle(result_img, (x, y), (x + w, y + h), color_bgr, 3)` and
`cv2.putText(result_img, f'Visage {...}', (x, y - 10), FONT, 0.7, color_bgr, 2)`. -/
def opsFor (faces : List FaceBox) (cb : Nat × Nat × Nat) (f : FaceBox) :
    List DrawOp :=
  [DrawOp.rect (f.x, f.y) (f.x + f.w, f.y + f.h) cb 3,
   DrawOp.text (labelFor faces f) ((f.x : Int), (f.y : Int) - 10) (7 / 10) cb 2]

/-- One iteration of the loop `for (x, y, w, h) in faces:` (lines 114–122),
acting on the pair of the current `result_img` and the drawing calls recorded
so far. A 2-dimensional `result_img` is first converted with `GRAY2RGB`
(line 116–117); then the rectangle and the label are drawn. -/
def annotBody (ext : Ext) (faces : List FaceBox) (cb : Nat × Nat × Nat)
    (st : Img × List DrawOp) (f : FaceBox) : Img × List DrawOp :=
  let img0 := match st.1 with
    | Img.g rows => Img.c (gray2rgbRows rows)
    | i => i
  let img1 := ext.rectangle img0 (f.x, f.y) (f.x + f.w, f.y + f.h) cb 3
  let img2 := ext.putText img1 (labelFor faces f)
      ((f.x : Int), (f.y : Int) - 10) (7 / 10) cb 2
  (img2, st.2 ++ opsFor faces cb f)

/-- The whole annotation loop, starting from `result_img = img_array.copy()`
(line 113) — in value semantics the copy is the value `img` itself. -/
def annotate (ext : Ext) (faces : List FaceBox) (cb : Nat × Nat × Nat)
    (img : Img) : Img × List DrawOp :=
  faces.foldl (annotBody ext faces cb) (img, [])

/-- `f"visages_detectes_{len(faces)}_faces.jpg"` (line 166). -/
def fileNameFor (n : Nat) : String :=
  "visages_detectes_" ++ toString n ++ "_faces.jpg"

/-- The artifact handed to `st.download_button`: the encoded bytes, the
`file_name` argument and the `mime` argument. -/
structure Download where
  data : List Nat
  fileName : String
  mime : String
deriving DecidableEq, Repr

/-- Lines 150–169: when `len(faces) > 0` the annotated image is converted for
saving, JPEG-encoded at quality 95 and offered under the face-count file
name; otherwise no download exists. -/
def downloadFor (ext : Ext) (faces : List FaceBox) (result_img : Img) :
    Option Download :=
  if 0 < faces.length then
    some { data := ext.jpeg (resultForSave result_img) 95
           fileName := fileNameFor faces.length
           mime := "image/jpeg" }
  else none

/-- Everything one successful run of the script body produces: the original
image displayed in the left column (line 100 displays the decoded upload),
the annotated image displayed in the right column (line 126), the detection
result, the recorded drawing calls, the optional download, and whether the
zero-faces message of line 173 is shown in place of the download button. -/
structure RunOutput where
  originalDisplayed : Img
  annotatedDisplayed : Img
  faces : List FaceBox
  drawOps : List DrawOp
  download : Option Download
  noFacesMsg : Bool
deriving DecidableEq, Repr

/-- Lines 105–110: the single `detectMultiScale` call — on the grayscale
image, with the sidebar's `scaleFactor` and `minNeighbors` and the literal
`minSize=(30, 30)`. -/
def facesOf (ext : Ext) (p : Params) (img_array : Img) : List FaceBox :=
  ext.detect (grayOf img_array) p.scaleFactor p.minNeighbors (30, 30)

/-- The script body for one decoded upload (lines 86–173), with all external
calls succeeding: grayscale conversion, the single `detectMultiScale` call
with `minSize=(30, 30)` (lines 105–110), the annotation loop on a copy of the
source array, and the conditional download section. -/
def runPipeline (ext : Ext) (p : Params) (img_array : Img) : RunOutput :=
  let faces := facesOf ext p img_array
  let cb := colorBGR p.color
  let ra := annotate ext faces cb img_array
  { originalDisplayed := img_array
    annotatedDisplayed := ra.1
    faces := faces
    drawOps := ra.2
    download := downloadFor ext faces ra.1
    noFacesMsg := decide (faces.length = 0) }

/-- The external routines again, but fallible: each may raise, modelled as
`Except` with the exception text. `decode` is `Image.open` + `np.array` on the
uploaded bytes (line 86–87). Any error propagates to the `try`/`except` of
lines 85 and 175. -/
structure ExtE where
  decode : List Nat → Except String Img
  detect : Img → ℚ → Nat → Nat × Nat → Except String (List FaceBox)
  rectangle : Img → Nat × Nat → Nat × Nat → Nat × Nat × Nat → Nat →
      Except String Img
  putText : Img → String → Int × Int → ℚ → Nat × Nat × Nat → Nat →
      Except String Img
  jpeg : Img → Nat → Except String (List Nat)

/-- One iteration of the annotation loop with fallible drawing calls. -/
def annotBodyE (ext : ExtE) (faces : List FaceBox) (cb : Nat × Nat × Nat)
    (st : Img × List DrawOp) (f : FaceBox) :
    Except String (Img × List DrawOp) := do
  let img0 := match st.1 with
    | Img.g rows => Img.c (gray2rgbRows rows)
    | i => i
  let img1 ← ext.rectangle img0 (f.x, f.y) (f.x + f.w, f.y + f.h) cb 3
  let img2 ← ext.putText img1 (labelFor faces f)
      ((f.x : Int), (f.y : Int) - 10) (7 / 10) cb 2
  pure (img2, st.2 ++ opsFor faces cb f)

/-- The body of the `try:` block (lines 86–173) with fallible external calls:
decode the upload, make the grayscale image, run the single detection call,
run the annotation loop, and build the download when faces were found. -/
def pipelineE (ext : ExtE) (p : Params) (upload : List Nat) :
    Except String RunOutput := do
  let img_array ← ext.decode upload
  let gray := grayOf img_array
  let faces ← ext.detect gray p.scaleFactor p.minNeighbors (30, 30)
  let cb := colorBGR p.color
  let ra ← faces.foldlM (annotBodyE ext faces cb) (img_array, ([] : List DrawOp))
  let dl ← if 0 < faces.length then do
      let bytes ← ext.jpeg (resultForSave ra.1) 95
      pure (some { data := bytes
                   fileName := fileNameFor faces.length
                   mime := "image/jpeg" })
    else pure (none : Option Download)
  pure { originalDisplayed := img_array
         annotatedDisplayed := ra.1
         faces := faces
         drawOps := ra.2
         download := dl
         noFacesMsg := decide (faces.length = 0) }

/-- What one top-to-bottom run of `main()` leaves on screen:
whether the missing-cascade error of line 43 was shown, whether `st.stop()`
halted the script there (line 44), whether the upload control of line 77 was
reached, the exception text surfaced by the `except` handler of line 176 (the
UI prefixes it with a fixed French sentence), and the successful run's output
if any. -/
structure AppResult where
  fatalCascadeError : Bool
  halted : Bool
  uploadUIShown : Bool
  runError : Option String
  output : Option RunOutput

/-- `main()` as a function of whether the cascade file exists at its expected
path (line 42's `os.path.exists`), the external routines, the sidebar
parameters and the optional upload. When the cascade file is missing the
script shows an error and stops before the upload control; otherwise the
upload control is shown and, when an upload is present, the `try:` body runs
with its exception handler. -/
def mainScript (cascadeExists : Bool) (ext : ExtE) (p : Params)
    (upload : Option (List Nat)) : AppResult :=
  if cascadeExists then
    match upload with
    | none =>
        { fatalCascadeError := false, halted := false, uploadUIShown := true
          runError := none, output := none }
    | some u =>
        match pipelineE ext p u with
        | Except.ok out =>
            { fatalCascadeError := false, halted := false
              uploadUIShown := true, runError := none, output := some out }
        | Except.error e =>
            { fatalCascadeError := false, halted := false
              uploadUIShown := true, runError := some e, output := none }
  else
    { fatalCascadeError := true, halted := true, uploadUIShown := false
      runError := none, output := none }

/-!
Concrete fixtures used by witnesses and counterexamples: a 1×1 three-channel
image, an external-routine bundle whose detector always reports one box and
whose drawing routines leave the pixels unchanged, and the default red color
with the default slider values.
-/

/-- A tiny concrete 3-channel image. -/
def demoImgC : Img := Img.c [[[1, 2, 3]]]

/-- A concrete detected box. -/
def demoFace : FaceBox := ⟨10, 10, 40, 40⟩

/-- Concrete external routines: the detector reports `demoFace`, drawing
returns the image unchanged, the encoder returns the quality argument as the
single byte (enough to observe the call). -/
def demoExt : Ext :=
  { detect := fun _ _ _ _ => [demoFace]
    rectangle := fun i _ _ _ _ => i
    putText := fun i _ _ _ _ _ => i
    jpeg := fun _ q => [q] }

/-- The default UI parameters: color `#FF0000`, scaleFactor 1.1,
minNeighbors 5. -/
def demoParamsRed : Params :=
  { color := ['#', 'F', 'F', '0', '0', '0', '0']
    scaleFactor := 11 / 10
    minNeighbors := 5 }

/-- Fallible external routines whose decode step raises. -/
def failExt : ExtE :=
  { decode := fun _ => Except.error "boom"
    detect := fun _ _ _ _ => Except.ok []
    rectangle := fun i _ _ _ _ => Except.ok i
    putText := fun i _ _ _ _ _ => Except.ok i
    jpeg := fun _ _ => Except.ok [] }

/-!
Shared lemmas about the embedding.
-/

/-- The drawing calls issued by the loop over `l`, in order: the two calls of
`opsFor` for each box. -/
def traceFor (faces : List FaceBox) (cb : Nat × Nat × Nat) :
    List FaceBox → List DrawOp
  | [] => []
  | f :: t => opsFor faces cb f ++ traceFor faces cb t

theorem annotBody_snd (ext : Ext) (faces : List FaceBox) (cb : Nat × Nat × Nat)
    (st : Img × List DrawOp) (f : FaceBox) :
    (annotBody ext faces cb st f).2 = st.2 ++ opsFor faces cb f := rfl

theorem foldl_annotBody_snd (ext : Ext) (faces : List FaceBox)
    (cb : Nat × Nat × Nat) (l : List FaceBox) :
    ∀ st : Img × List DrawOp,
      (l.foldl (annotBody ext faces cb) st).2 = st.2 ++ traceFor faces cb l := by
  induction l with
  | nil => intro st; simp [traceFor]
  | cons f t ih =>
      intro st
      rw [List.foldl_cons, ih, annotBody_snd, traceFor, List.append_assoc]

/-- The recorded calls of a whole run of the annotation loop. -/
theorem annotate_snd (ext : Ext) (faces : List FaceBox) (cb : Nat × Nat × Nat)
    (img : Img) :
    (annotate ext faces cb img).2 = traceFor faces cb faces := by
  simp [annotate, foldl_annotBody_snd ext faces cb faces (img, [])]

theorem mem_traceFor {faces : List FaceBox} {cb : Nat × Nat × Nat}
    {op : DrawOp} {f : FaceBox} :
    ∀ {l : List FaceBox}, f ∈ l → op ∈ opsFor faces cb f →
      op ∈ traceFor faces cb l := by
  intro l hf hop
  induction l with
  | nil => cases hf
  | cons a t ih =>
      rcases List.mem_cons.mp hf with h | h
      · subst h
        exact List.mem_append.mpr (Or.inl hop)
      · exact List.mem_append.mpr (Or.inr (ih h))

theorem length_filter_imp {α : Type} (p q : α → Bool)
    (h : ∀ a, p a = true → q a = true) (l : List α) :
    (l.filter p).length ≤ (l.filter q).length := by
  induction l with
  | nil => simp
  | cons a t ih =>
      by_cases hp : p a = true
      · have hq := h a hp
        simp only [List.filter_cons, hp, hq, if_true, List.length_cons]
        omega
      · by_cases hq : q a = true <;>
          simp only [List.filter_cons, hp, hq, if_true, if_false,
            Bool.false_eq_true, List.length_cons] <;> omega

theorem getD_map {α β : Type} (f : α → β) (d : α) (l : List α) :
    ∀ i : Nat, (l.map f).getD i (f d) = f (l.getD i d) := by
  induction l with
  | nil => intro i; simp [List.getD]
  | cons a t ih =>
      intro i
      cases i with
      | zero => simp [List.getD]
      | succ j => simp [List.getD, ih j]

/-- `COLOR_BGR2RGB` exchanges the first and third channel of every pixel. -/
theorem pixelAt_cvtBGR2RGB (img : Img) (i j : Nat) :
    pixelAt (cvtBGR2RGB img) i j = swapPix (pixelAt img i j) := by
  cases img with
  | g rows => rfl
  | c rows =>
      show ((rows.map (fun row => row.map swapPix)).getD i []).getD j [] =
        swapPix ((rows.getD i []).getD j [])
      have h1 : (rows.map (fun row => row.map swapPix)).getD i
          ((fun row => row.map swapPix) []) =
          (fun row => row.map swapPix) (rows.getD i []) :=
        getD_map (fun row => row.map swapPix) [] rows i
      simp only [List.map_nil] at h1
      rw [h1]
      have h0 : swapPix ([] : List Nat) = [] := rfl
      rw [← h0]
      exact getD_map swapPix [] (rows.getD i []) j

theorem runPipeline_faces_eq (ext : Ext) (p : Params) (img : Img) :
    (runPipeline ext p img).faces = facesOf ext p img := rfl

theorem runPipeline_original_eq (ext : Ext) (p : Params) (img : Img) :
    (runPipeline ext p img).originalDisplayed = img := rfl

theorem runPipeline_annotated_eq (ext : Ext) (p : Params) (img : Img) :
    (runPipeline ext p img).annotatedDisplayed =
      (annotate ext (facesOf ext p img) (colorBGR p.color) img).1 := rfl

theorem runPipeline_download_eq (ext : Ext) (p : Params) (img : Img) :
    (runPipeline ext p img).download =
      downloadFor ext (facesOf ext p img)
        (annotate ext (facesOf ext p img) (colorBGR p.color) img).1 := rfl

theorem runPipeline_noFacesMsg_eq (ext : Ext) (p : Params) (img : Img) :
    (runPipeline ext p img).noFacesMsg =
      decide ((facesOf ext p img).length = 0) := rfl

theorem runPipeline_drawOps_eq (ext : Ext) (p : Params) (img : Img) :
    (runPipeline ext p img).drawOps =
      traceFor (facesOf ext p img) (colorBGR p.color) (facesOf ext p img) := by
  show (annotate ext (facesOf ext p img) (colorBGR p.color) img).2 = _
  exact annotate_snd ext (facesOf ext p img) (colorBGR p.color) img

/-!
The claim theorems.
-/

/-- C7: every detection run invokes the external multi-scale cascade search
on the grayscale image with the fixed minimum size `(30, 30)`, passing the
sidebar's `scaleFactor` and `minNeighbors` through unchanged to that single
call — the run's detection result is exactly the value of that one call. -/
theorem C7_detect_call (ext : Ext) (p : Params) (img : Img) :
    (runPipeline ext p img).faces =
      ext.detect (grayOf img) p.scaleFactor p.minNeighbors (30, 30) := rfl

/-- C8: annotation never mutates the decoded source image — the image
displayed as the original equals the decoded upload for every choice of
external routines, and the annotated image is built by the annotation loop
starting from the copied source value. -/
theorem C8_source_untouched (ext : Ext) (p : Params) (img : Img) :
    (runPipeline ext p img).originalDisplayed = img ∧
      (runPipeline ext p img).annotatedDisplayed =
        (annotate ext (runPipeline ext p img).faces (colorBGR p.color) img).1 :=
  ⟨rfl, rfl⟩

/-- C6: when the cascade model file is absent at its expected path, the
session halts with a user-visible error before the upload control is shown;
no detection, annotation or download output exists in that state, whatever
the upload or the external routines. -/
theorem C6_missing_cascade (ext : ExtE) (p : Params)
    (upload : Option (List Nat)) :
    mainScript false ext p upload =
      { fatalCascadeError := true, halted := true, uploadUIShown := false
        runError := none, output := none } := rfl

/-- C4: the download is offered if and only if the detected face count is at
least 1; when zero faces are detected there is no download and the
explanatory message of line 173 is shown instead. -/
theorem C4_download_iff (ext : Ext) (p : Params) (img : Img) :
    ((runPipeline ext p img).download.isSome = true ↔
        1 ≤ (runPipeline ext p img).faces.length) ∧
      ((runPipeline ext p img).faces.length = 0 →
        (runPipeline ext p img).download = none ∧
          (runPipeline ext p img).noFacesMsg = true) := by
  constructor
  · rw [runPipeline_download_eq, runPipeline_faces_eq]
    unfold downloadFor
    rcases Nat.lt_or_ge 0 (facesOf ext p img).length with h | h
    · rw [if_pos h]
      simpa using h
    · rw [if_neg (by omega)]
      simp only [Option.isSome_none, Bool.false_eq_true, false_iff]
      omega
  · intro h0
    rw [runPipeline_faces_eq] at h0
    refine ⟨?_, ?_⟩
    · rw [runPipeline_download_eq]
      unfold downloadFor
      simp [h0]
    · rw [runPipeline_noFacesMsg_eq]
      simp [h0]

/-- C4 witness: on the concrete fixtures one face is detected and the
download is offered. -/
theorem C4_download_iff_witness :
    (runPipeline demoExt demoParamsRed demoImgC).download.isSome = true :=
  (C4_download_iff demoExt demoParamsRed demoImgC).1.mpr (by decide)

/-- C1 (amended): when at least one face is detected, the artifact offered
for download is the image JPEG-encoded at quality 95 under the file name
`visages_detectes_` ++ count ++ `_faces.jpg`, where count is exactly the
number of detected face boxes. (The claim's file name `faces_detected_...`
does not occur in the code.) -/
theorem C1_download_artifact (ext : Ext) (p : Params) (img : Img)
    (h : 1 ≤ (runPipeline ext p img).faces.length) :
    (runPipeline ext p img).download =
      some { data := ext.jpeg
               (resultForSave (runPipeline ext p img).annotatedDisplayed) 95
             fileName := "visages_detectes_" ++
               toString (runPipeline ext p img).faces.length ++ "_faces.jpg"
             mime := "image/jpeg" } := by
  rw [runPipeline_download_eq]
  rw [runPipeline_faces_eq] at h
  have h0 : 0 < (facesOf ext p img).length := h
  unfold downloadFor
  rw [if_pos h0]
  rfl

/-- C1 witness: the amended statement at the concrete fixtures. -/
theorem C1_download_artifact_witness :
    1 ≤ (runPipeline demoExt demoParamsRed demoImgC).faces.length ∧
      (runPipeline demoExt demoParamsRed demoImgC).download =
        some { data := demoExt.jpeg
                 (resultForSave
                   (runPipeline demoExt demoParamsRed demoImgC).annotatedDisplayed) 95
               fileName := "visages_detectes_" ++
                 toString (runPipeline demoExt demoParamsRed demoImgC).faces.length ++
                 "_faces.jpg"
               mime := "image/jpeg" } :=
  ⟨by decide, C1_download_artifact demoExt demoParamsRed demoImgC (by decide)⟩

/-- C1 counterexample: on a run with one detected face the offered file name
is `visages_detectes_1_faces.jpg`, not the claimed
`faces_detected_1_faces.jpg`. -/
theorem C1_filename_counterexample :
    ((runPipeline demoExt demoParamsRed demoImgC).download.map Download.fileName) =
        some "visages_detectes_1_faces.jpg" ∧
      ("visages_detectes_1_faces.jpg" : String) ≠ "faces_detected_1_faces.jpg" :=
  ⟨by decide, by decide⟩

/-- C2 (amended): for every detected face box the annotator issues a
rectangle call of line width 3 whose color triple is `colorBGR` of the chosen
hex string — the byte-reversed (BGR-ordered) form of the RGB triple the hex
string denotes, not that RGB triple itself. -/
theorem C2_rect_color (ext : Ext) (p : Params) (img : Img) :
    (∀ f ∈ (runPipeline ext p img).faces,
        DrawOp.rect (f.x, f.y) (f.x + f.w, f.y + f.h) (colorBGR p.color) 3 ∈
          (runPipeline ext p img).drawOps) ∧
      colorBGR p.color = bgrOfRGB (spec_hexToRGB p.color) := by
  constructor
  · intro f hf
    rw [runPipeline_drawOps_eq]
    rw [runPipeline_faces_eq] at hf
    exact mem_traceFor hf (by simp [opsFor])
  · rfl

/-- C2 witness: the amended statement at the concrete fixtures. -/
theorem C2_rect_color_witness :
    demoFace ∈ (runPipeline demoExt demoParamsRed demoImgC).faces ∧
      DrawOp.rect (10, 10) (50, 50) (colorBGR demoParamsRed.color) 3 ∈
        (runPipeline demoExt demoParamsRed demoImgC).drawOps :=
  ⟨by decide,
    (C2_rect_color demoExt demoParamsRed demoImgC).1 demoFace (by decide)⟩

/-- C2 counterexample: with the chosen color `#FF0000` the rectangle call
carries the triple `(0, 0, 255)`, not the RGB triple `(255, 0, 0)` the hex
string denotes — so on the RGB-decoded annotated image the rectangles are
blue, not red. -/
theorem C2_color_counterexample :
    (runPipeline demoExt demoParamsRed demoImgC).drawOps.head? =
        some (DrawOp.rect (10, 10) (50, 50) (0, 0, 255) 3) ∧
      spec_hexToRGB demoParamsRed.color = (255, 0, 0) ∧
      ((0, 0, 255) : Nat × Nat × Nat) ≠ (255, 0, 0) :=
  ⟨by decide, by decide, by decide⟩

/-- C3 (amended): for every detected face box `(x, y, w, h)` the annotator
issues a text call at position `(x, y - 10)` whose label reads `Visage N`
(not `Face N`), where `N` is the count of detected boxes whose `y` is at most
the current box's `y`. -/
theorem C3_text_labels (ext : Ext) (p : Params) (img : Img) :
    ∀ f ∈ (runPipeline ext p img).faces,
      DrawOp.text
          ("Visage " ++ toString
            (((runPipeline ext p img).faces.filter
              (fun g => g.y ≤ f.y)).length))
          ((f.x : Int), (f.y : Int) - 10) (7 / 10) (colorBGR p.color) 2 ∈
        (runPipeline ext p img).drawOps := by
  intro f hf
  rw [runPipeline_drawOps_eq]
  rw [runPipeline_faces_eq] at hf ⊢
  exact mem_traceFor hf (by simp [opsFor, labelFor])

/-- C3 witness: the amended statement at the concrete fixtures. -/
theorem C3_text_labels_witness :
    demoFace ∈ (runPipeline demoExt demoParamsRed demoImgC).faces ∧
      DrawOp.text
          ("Visage " ++ toString
            (((runPipeline demoExt demoParamsRed demoImgC).faces.filter
              (fun g => g.y ≤ demoFace.y)).length))
          ((demoFace.x : Int), (demoFace.y : Int) - 10) (7 / 10)
          (colorBGR demoParamsRed.color) 2 ∈
        (runPipeline demoExt demoParamsRed demoImgC).drawOps :=
  ⟨by decide,
    C3_text_labels demoExt demoParamsRed demoImgC demoFace (by decide)⟩

/-- C3 counterexample: on a run with one detected face the only text call's
label is `Visage 1`, not the claimed `Face 1`. -/
theorem C3_label_counterexample :
    ((runPipeline demoExt demoParamsRed demoImgC).drawOps.filterMap textOf) =
        ["Visage 1"] ∧ ("Visage 1" : String) ≠ "Face 1" :=
  ⟨by decide, by decide⟩

/-- C5: any exception raised inside the per-upload body — decoding,
detection, annotation or encoding — is caught by the top-level handler and
surfaced as a user-visible message; the failed request yields no output (so
no artifact and no download), and the script neither halts nor loses the
upload control. -/
theorem C5_exception_caught (ext : ExtE) (p : Params) (u : List Nat)
    (e : String) (h : pipelineE ext p u = Except.error e) :
    mainScript true ext p (some u) =
      { fatalCascadeError := false, halted := false, uploadUIShown := true
        runError := some e, output := none } := by
  simp [mainScript, h]

/-- C5 witness: a decode failure on the concrete fixtures is caught and
surfaced, with no output offered. -/
theorem C5_exception_caught_witness :
    pipelineE failExt demoParamsRed [0] = Except.error "boom" ∧
      mainScript true failExt demoParamsRed (some [0]) =
        { fatalCascadeError := false, halted := false, uploadUIShown := true
          runError := some "boom", output := none } :=
  ⟨rfl, C5_exception_caught failExt demoParamsRed [0] "boom" rfl⟩

/-- Modelled from the spec: the multi-scale cascade search itself is OpenCV
library code, not part of this repository — only its call site is. Per the
spec's glossary, `minNeighbors` is the "minimum number of overlapping raw
detections required to confirm a final bounding box": for a fixed image and
`scaleFactor` the search produces raw detection clusters, each a box with its
neighbor count, and confirms exactly those meeting the threshold. -/
def specDetectMultiScale (raw : Img → ℚ → List (FaceBox × Nat)) (g : Img)
    (sf : ℚ) (minNeighbors : Nat) : List FaceBox :=
  ((raw g sf).filter (fun c => minNeighbors ≤ c.2)).map Prod.fst

/-- The program's external bundle with its detector given by the
spec-modelled cascade search over raw clusters `raw`. -/
def specCascadeExt (raw : Img → ℚ → List (FaceBox × Nat)) (base : Ext) :
    Ext :=
  { base with detect := fun g sf mn _ => specDetectMultiScale raw g sf mn }

/-- C9: for a fixed image and fixed `scaleFactor`, increasing `minNeighbors`
never increases the number of detected boxes: for `n1 ≤ n2` in `[1, 10]` the
run's detection count at `minNeighbors = n2` is at most the count at
`minNeighbors = n1` (stated over the spec-modelled cascade search). -/
theorem C9_minNeighbors_antitone (raw : Img → ℚ → List (FaceBox × Nat))
    (base : Ext) (col : List Char) (sf : ℚ) (img : Img) (n1 n2 : Nat)
    (_hlo : 1 ≤ n1) (h12 : n1 ≤ n2) (_hhi : n2 ≤ 10) :
    (runPipeline (specCascadeExt raw base)
        { color := col, scaleFactor := sf, minNeighbors := n2 } img).faces.length ≤
      (runPipeline (specCascadeExt raw base)
        { color := col, scaleFactor := sf, minNeighbors := n1 } img).faces.length := by
  rw [runPipeline_faces_eq, runPipeline_faces_eq]
  show (specDetectMultiScale raw (grayOf img) sf n2).length ≤
    (specDetectMultiScale raw (grayOf img) sf n1).length
  unfold specDetectMultiScale
  rw [List.length_map, List.length_map]
  refine length_filter_imp _ _ (fun a ha => ?_) _
  simp only [decide_eq_true_eq] at ha ⊢
  omega

/-- Raw detection clusters for the C9 witness: two boxes with neighbor
counts 3 and 7. -/
def demoRaw : Img → ℚ → List (FaceBox × Nat) :=
  fun _ _ => [(⟨0, 0, 30, 30⟩, 3), (⟨5, 5, 40, 40⟩, 7)]

/-- C9 witness: at `minNeighbors = 10` the count is at most the count at
`minNeighbors = 1` on the concrete raw clusters. -/
theorem C9_minNeighbors_antitone_witness :
    (runPipeline (specCascadeExt demoRaw demoExt)
        { color := demoParamsRed.color, scaleFactor := 11 / 10,
          minNeighbors := 10 } demoImgC).faces.length ≤
      (runPipeline (specCascadeExt demoRaw demoExt)
        { color := demoParamsRed.color, scaleFactor := 11 / 10,
          minNeighbors := 1 } demoImgC).faces.length :=
  C9_minNeighbors_antitone demoRaw demoExt demoParamsRed.color (11 / 10)
    demoImgC 1 10 (by decide) (by decide) (by decide)

/-- C10: for a 3-channel annotated image with at least one detected face, the
downloaded bytes are encoded from the annotated array after a BGR→RGB
conversion — a swap of its first and third channels — so every pixel of the
encoded array has its red and blue channels exchanged relative to the
annotated image shown on screen. -/
theorem C10_download_swapped (ext : Ext) (p : Params) (img : Img)
    (h3 : channels3 (runPipeline ext p img).annotatedDisplayed = true)
    (h1 : 1 ≤ (runPipeline ext p img).faces.length) :
    (runPipeline ext p img).download =
        some { data := ext.jpeg
                 (cvtBGR2RGB (runPipeline ext p img).annotatedDisplayed) 95
               fileName := fileNameFor (runPipeline ext p img).faces.length
               mime := "image/jpeg" } ∧
      ∀ i j : Nat,
        pixelAt (cvtBGR2RGB (runPipeline ext p img).annotatedDisplayed) i j =
          swapPix (pixelAt (runPipeline ext p img).annotatedDisplayed i j) := by
  constructor
  · rw [runPipeline_download_eq]
    rw [runPipeline_faces_eq] at h1
    rw [runPipeline_annotated_eq] at h3
    have h0 : 0 < (facesOf ext p img).length := h1
    unfold downloadFor
    rw [if_pos h0]
    unfold resultForSave
    simp only [h3, if_true]
    rfl
  · intro i j
    exact pixelAt_cvtBGR2RGB _ i j

/-- C10 witness: the statement at the concrete fixtures, with the pixel-level
exchange checked at pixel `(0, 0)`. -/
theorem C10_download_swapped_witness :
    channels3 (runPipeline demoExt demoParamsRed demoImgC).annotatedDisplayed =
        true ∧
      1 ≤ (runPipeline demoExt demoParamsRed demoImgC).faces.length ∧
      (runPipeline demoExt demoParamsRed demoImgC).download =
        some { data := demoExt.jpeg
                 (cvtBGR2RGB
                   (runPipeline demoExt demoParamsRed demoImgC).annotatedDisplayed) 95
               fileName := fileNameFor
                 (runPipeline demoExt demoParamsRed demoImgC).faces.length
               mime := "image/jpeg" } ∧
      pixelAt
          (cvtBGR2RGB
            (runPipeline demoExt demoParamsRed demoImgC).annotatedDisplayed) 0 0 =
        swapPix
          (pixelAt
            (runPipeline demoExt demoParamsRed demoImgC).annotatedDisplayed 0 0) :=
  ⟨by decide, by decide,
    (C10_download_swapped demoExt demoParamsRed demoImgC (by decide)
        (by decide)).1,
    (C10_download_swapped demoExt demoParamsRed demoImgC (by decide)
        (by decide)).2 0 0⟩

end AppVisages
